import Mathlib

/-!
Verification of the argus repository fragment: a shallow embedding of the
three source files under src/argus-src/src (models/globalErrorMsg.ts,
constants/app.ts, utils/darkUtil.ts) together with theorems settling the
documented behavioural properties.
-/

/-- Embeds the class `GlobalErrorMsg` from src/models/globalErrorMsg.ts.
The severity field `type` is modelled as a runtime string because the
TypeScript union type is erased and not enforced at runtime; `duration`
is modelled as an integer. -/
structure GlobalErrorMsg where
  title : String
  msg : String
  duration : Int
  type : String
deriving Repr, DecidableEq

/-- Embeds the constructor of `GlobalErrorMsg`: the body assigns each of
the four arguments to the corresponding field of the new record and does
nothing else. -/
def GlobalErrorMsg.make (title msg : String) (duration : Int)
    (type : String) : GlobalErrorMsg :=
  { title := title, msg := msg, duration := duration, type := type }

/-- The five severity strings enumerated by the TypeScript union type of
the `type` field. -/
def validSeverities : List String :=
  ["success", "warning", "info", "error", ""]

/-- A write to one of the four public, writable fields of a
`GlobalErrorMsg` instance (the class declares no access modifier and no
readonly marker, so every field is publicly assignable). -/
inductive FieldWrite where
  | title (v : String)
  | msg (v : String)
  | duration (v : Int)
  | type (v : String)
deriving Repr, DecidableEq

/-- Embeds a field assignment `instance.field = v` on a `GlobalErrorMsg`
instance. -/
def GlobalErrorMsg.write (e : GlobalErrorMsg) : FieldWrite → GlobalErrorMsg
  | .title v => { e with title := v }
  | .msg v => { e with msg := v }
  | .duration v => { e with duration := v }
  | .type v => { e with type := v }

/-- Embeds the shape of the object literal `app` from
src/constants/app.ts. -/
structure AppConstants where
  PRODUCTION : String
  DEVELOPMENT : String
deriving Repr, DecidableEq

/-- Embeds the object literal `app` from src/constants/app.ts. -/
def app : AppConstants :=
  { PRODUCTION := "production", DEVELOPMENT := "development" }

/-- The property list of the object literal `app`, in source order: the
literal contains exactly these two own properties and no others. -/
def appProps : List (String × String) :=
  [("PRODUCTION", "production"), ("DEVELOPMENT", "development")]

/-- The export list of the module src/constants/app.ts: the file contains
the single statement `export default app`, so the only export name is the
default export. -/
def appModuleExportNames : List String :=
  ["default"]

/-- The value bound to the default export of src/constants/app.ts. -/
def appDefaultExport : AppConstants := app

/-- Modelled from the spec: the reactive boolean signal produced by
`useDark()` in src/utils/darkUtil.ts together with its registered
observers. The implementations of `useDark` and `useToggle` live in the
external library vueuse and are not under src/; the spec gives their
contract in section 4.3. Each registered observer is represented by the
list of values it has been notified of so far, most recent first. -/
structure DarkSignal where
  isDark : Bool
  observers : List (List Bool)
deriving Repr, DecidableEq

/-- Modelled from the spec: `toggleDark = useToggle(isDark)` from
src/utils/darkUtil.ts. Calling it flips the signal to the logical
negation of its current value and synchronously notifies every
previously registered observer of the new value before returning, so the
resulting state already records the delivered notifications. -/
def toggleDark (s : DarkSignal) : DarkSignal :=
  let v := !s.isDark
  { isDark := v, observers := s.observers.map (fun received => v :: received) }

/-- Modelled from the spec: registering a fresh observer on the signal;
the new observer has received no notifications yet. -/
def DarkSignal.subscribe (s : DarkSignal) : DarkSignal :=
  { s with observers := s.observers ++ [[]] }

/-- The whole mutable state touched by the three source files: the
constants object of src/constants/app.ts, the dark-mode signal of
src/utils/darkUtil.ts, and the heap of `GlobalErrorMsg` instances
constructed so far, in order of construction. -/
structure World where
  appConsts : AppConstants
  dark : DarkSignal
  notifications : List GlobalErrorMsg
deriving Repr, DecidableEq

/-- The state right after module initialization: the constants object
holds the two literals from the source, the dark signal holds the host
theme preference (an opaque boolean `b`) with no observers yet, and no
`GlobalErrorMsg` has been constructed. -/
def World.start (b : Bool) : World :=
  { appConsts := app
  , dark := { isDark := b, observers := [] }
  , notifications := [] }

/-- Embeds `new GlobalErrorMsg(title, msg, duration, type)` as a state
transformer: it allocates the new record, whose fields are the four
arguments, and touches nothing else. -/
def runConstruct (w : World) (title msg : String) (duration : Int)
    (type : String) : GlobalErrorMsg × World :=
  let r := GlobalErrorMsg.make title msg duration type
  (r, { w with notifications := w.notifications ++ [r] })

/-- Embeds a call to `toggleDark()` as a state transformer. -/
def runToggle (w : World) : World :=
  { w with dark := toggleDark w.dark }

/-- Embeds registering an observer on `isDark` as a state transformer. -/
def runSubscribe (w : World) : World :=
  { w with dark := w.dark.subscribe }

/-- Embeds a field assignment on the i-th constructed `GlobalErrorMsg`
instance as a state transformer; out-of-range indices leave the state
unchanged. -/
def runWrite (w : World) (i : Nat) (f : FieldWrite) : World :=
  match w.notifications[i]? with
  | some e => { w with notifications := w.notifications.set i (e.write f) }
  | none => w

/-- The states reachable by running the operations of the three source
files from a freshly initialized module state. -/
inductive Reachable : World → Prop where
  | start (b : Bool) : Reachable (World.start b)
  | construct (w : World) (t m : String) (d : Int) (ty : String) :
      Reachable w → Reachable (runConstruct w t m d ty).2
  | toggle (w : World) : Reachable w → Reachable (runToggle w)
  | subscribe (w : World) : Reachable w → Reachable (runSubscribe w)
  | write (w : World) (i : Nat) (f : FieldWrite) :
      Reachable w → Reachable (runWrite w i f)

/-- C1: for every four inputs with a nonnegative duration and a severity
among the five enumerated values, the constructor yields a record whose
four fields equal the four inputs unchanged; in particular the
"Network Error" example of the spec evaluates as stated. -/
theorem make_stores_inputs_exactly (title msg : String) (duration : Int)
    (type : String) (hd : 0 ≤ duration) (hty : type ∈ validSeverities) :
    (GlobalErrorMsg.make title msg duration type).title = title ∧
    (GlobalErrorMsg.make title msg duration type).msg = msg ∧
    (GlobalErrorMsg.make title msg duration type).duration = duration ∧
    (GlobalErrorMsg.make title msg duration type).type = type ∧
    GlobalErrorMsg.make "Network Error" "Failed to reach server" 5000 "error" =
      { title := "Network Error", msg := "Failed to reach server"
      , duration := 5000, type := "error" } :=
  ⟨rfl, rfl, rfl, rfl, rfl⟩

/-- Witness for C1 at the concrete example input of the spec. -/
theorem make_stores_inputs_exactly_witness :
    (GlobalErrorMsg.make "Network Error" "Failed to reach server" 5000
        "error").title = "Network Error" ∧
    (GlobalErrorMsg.make "Network Error" "Failed to reach server" 5000
        "error").msg = "Failed to reach server" ∧
    (GlobalErrorMsg.make "Network Error" "Failed to reach server" 5000
        "error").duration = 5000 ∧
    (GlobalErrorMsg.make "Network Error" "Failed to reach server" 5000
        "error").type = "error" ∧
    GlobalErrorMsg.make "Network Error" "Failed to reach server" 5000 "error" =
      { title := "Network Error", msg := "Failed to reach server"
      , duration := 5000, type := "error" } :=
  make_stores_inputs_exactly "Network Error" "Failed to reach server" 5000
    "error" (by decide) (by decide)

/-- C2: a single call to the toggle operation leaves the signal equal to
the logical negation of its value immediately before the call. -/
theorem toggleDark_negates (s : DarkSignal) :
    (toggleDark s).isDark = !s.isDark :=
  rfl

/-- C3: two successive calls to the toggle operation return the signal to
the value it had before the first call. -/
theorem toggleDark_toggleDark_id (s : DarkSignal) :
    (toggleDark (toggleDark s)).isDark = s.isDark := by
  simp [toggleDark]

/-- C4: the constants object exposes PRODUCTION equal to "production" and
DEVELOPMENT equal to "development", and the two strings differ. -/
theorem app_constants_values :
    app.PRODUCTION = "production" ∧
    app.DEVELOPMENT = "development" ∧
    app.PRODUCTION ≠ app.DEVELOPMENT :=
  ⟨rfl, rfl, by decide⟩

/-- C5: construction and field access are total over all inputs, with no
validation and no failure path: for every inputs, including a negative
duration and a severity outside the enumerated five, the constructor
succeeds and stores the given values unchanged; in particular it accepts
the out-of-range input (duration -3, severity "fatal"). -/
theorem make_total_no_validation (title msg : String) (duration : Int)
    (type : String) :
    (GlobalErrorMsg.make title msg duration type).title = title ∧
    (GlobalErrorMsg.make title msg duration type).msg = msg ∧
    (GlobalErrorMsg.make title msg duration type).duration = duration ∧
    (GlobalErrorMsg.make title msg duration type).type = type ∧
    GlobalErrorMsg.make "x" "y" (-3) "fatal" =
      { title := "x", msg := "y", duration := -3, type := "fatal" } :=
  ⟨rfl, rfl, rfl, rfl, rfl⟩

/-- C6: in every state reachable by the operations of the program from a
freshly initialized module state, the constants object still holds the
two literal strings, so every read at any point returns the same two
values. -/
theorem app_constants_never_mutated (w : World) (h : Reachable w) :
    w.appConsts.PRODUCTION = "production" ∧
    w.appConsts.DEVELOPMENT = "development" := by
  induction h with
  | start b => exact ⟨rfl, rfl⟩
  | construct w t m d ty _ ih => exact ih
  | toggle w _ ih => exact ih
  | subscribe w _ ih => exact ih
  | write w i f _ ih =>
      unfold runWrite
      cases w.notifications[i]? with
      | none => exact ih
      | some e => exact ih

/-- Witness for C6 at a concrete reachable state. -/
theorem app_constants_never_mutated_witness :
    (World.start true).appConsts.PRODUCTION = "production" ∧
    (World.start true).appConsts.DEVELOPMENT = "development" :=
  app_constants_never_mutated (World.start true) (Reachable.start true)

/-- C7: constructing a record only allocates the new record with the four
given fields: the constants object, the dark signal, and every
previously constructed record are left unchanged, the new record being
appended after them. -/
theorem runConstruct_frame (w : World) (t m : String) (d : Int)
    (ty : String) :
    (runConstruct w t m d ty).1 = GlobalErrorMsg.make t m d ty ∧
    (runConstruct w t m d ty).2.appConsts = w.appConsts ∧
    (runConstruct w t m d ty).2.dark = w.dark ∧
    (runConstruct w t m d ty).2.notifications =
      w.notifications ++ [GlobalErrorMsg.make t m d ty] :=
  ⟨rfl, rfl, rfl, rfl⟩

/-- C8: every observer registered on the signal before a toggle call is
notified of the new value as part of the call itself: in the state the
call returns, each previously registered observer has the new value at
the head of its received notifications. -/
theorem toggleDark_notifies_observers (s : DarkSignal) (i : Nat)
    (h : i < s.observers.length) :
    (toggleDark s).observers[i]? =
      some ((toggleDark s).isDark :: s.observers[i]) := by
  simp [toggleDark, List.getElem?_eq_getElem h]

/-- Witness for C8: a signal with one registered observer, toggled once. -/
theorem toggleDark_notifies_observers_witness :
    (toggleDark { isDark := false, observers := [[]] }).observers[0]? =
      some ((toggleDark { isDark := false, observers := [[]] }).isDark ::
        (({ isDark := false, observers := [[]] } : DarkSignal).observers[0])) :=
  toggleDark_notifies_observers { isDark := false, observers := [[]] } 0
    (by decide)

/-- C9: every one of the four fields of a constructed record is publicly
writable, and writing one field sets it to the assigned value while
leaving the other three fields unchanged. -/
theorem write_field_frame (e : GlobalErrorMsg) (s u : String) (d : Int) :
    ((e.write (.title s)).title = s ∧
     (e.write (.title s)).msg = e.msg ∧
     (e.write (.title s)).duration = e.duration ∧
     (e.write (.title s)).type = e.type) ∧
    ((e.write (.msg s)).msg = s ∧
     (e.write (.msg s)).title = e.title ∧
     (e.write (.msg s)).duration = e.duration ∧
     (e.write (.msg s)).type = e.type) ∧
    ((e.write (.duration d)).duration = d ∧
     (e.write (.duration d)).title = e.title ∧
     (e.write (.duration d)).msg = e.msg ∧
     (e.write (.duration d)).type = e.type) ∧
    ((e.write (.type u)).type = u ∧
     (e.write (.type u)).title = e.title ∧
     (e.write (.type u)).msg = e.msg ∧
     (e.write (.type u)).duration = e.duration) :=
  ⟨⟨rfl, rfl, rfl, rfl⟩, ⟨rfl, rfl, rfl, rfl⟩,
   ⟨rfl, rfl, rfl, rfl⟩, ⟨rfl, rfl, rfl, rfl⟩⟩

/-- C10: the constants object has exactly the two properties PRODUCTION
and DEVELOPMENT, with their literal values, and the module exports
nothing but this object as its default export. -/
theorem app_module_shape :
    appProps.length = 2 ∧
    appProps.map Prod.fst = ["PRODUCTION", "DEVELOPMENT"] ∧
    appProps.lookup "PRODUCTION" = some app.PRODUCTION ∧
    appProps.lookup "DEVELOPMENT" = some app.DEVELOPMENT ∧
    appModuleExportNames = ["default"] ∧
    appDefaultExport = app :=
  ⟨rfl, rfl, by decide, by decide, rfl, rfl⟩
